import Mathlib

/-!
Shallow embedding of the DadHatHub backend (Express server `server.js` and its
variants): product catalog reshaping, checkout-session creation, and the
Stripe-webhook order-translation flow that submits fulfillment orders to
Printful.  JavaScript values that may be `undefined`/`null` are modelled as
`Option`, JavaScript truthiness of strings (`undefined`, `null` and `""` are
falsy) is modelled explicitly, `parseInt`/`parseFloat`/`String(...)` are
modelled on their decimal-digit behavior, and IEEE-754 double arithmetic is
modelled exactly over `ℚ` by round-to-nearest-even at 53 significant bits.
-/

/-! ## JavaScript primitives -/

/-- Truthiness of a JavaScript string-or-missing value: `undefined`, `null`
and the empty string are falsy; every other string is truthy. -/
def jsTruthy : Option String → Bool
  | none => false
  | some s => s ≠ ""

/-- The JavaScript expression `x || d` for a string-or-missing `x` and a
string default `d`: the default is used when `x` is missing or empty. -/
def jsOrStr (x : Option String) (d : String) : String :=
  if jsTruthy x then x.getD "" else d

/-- The JavaScript expression `x || y` where both sides are
string-or-missing values. -/
def jsOr (x y : Option String) : Option String :=
  if jsTruthy x then x else y

/-- Numeric value of a list of decimal digit characters, most significant
first, as read by `parseInt`. -/
def digitsVal (l : List Char) : Nat :=
  l.foldl (fun a c => 10 * a + (c.toNat - 48)) 0

/-- Longest leading run of decimal digit characters of a character list. -/
def leadingDigits : List Char → List Char
  | [] => []
  | c :: cs => if c.isDigit then c :: leadingDigits cs else []

/-- Model of JavaScript `parseInt(s, 10)` on non-negative inputs: the value
of the longest leading digit run, or `none` (`NaN`) when there is none. -/
def jsParseInt (s : String) : Option Nat :=
  match leadingDigits s.data with
  | [] => none
  | l => some (digitsVal l)

/-- Model of JavaScript `String(n)` for a non-negative integer-valued
number: its decimal digit string. -/
def jsStringOfNat (n : Nat) : String :=
  if n = 0 then "0"
  else ⟨((Nat.digits 10 n).reverse.map fun d => Char.ofNat (48 + d))⟩

/-- Model of JavaScript `String(x)` where `x` is a non-negative
integer-valued number or `null` (as the catalog mapper produces for a
missing variant id): `String(null)` is the string `"null"`. -/
def jsStringOfNullable : Option Nat → String
  | some n => jsStringOfNat n
  | none => "null"

/-- Exact rational value of the longest leading decimal-literal run of a
string (`digits`, optionally followed by a dot and more digits), or `none`
when no digits lead the string.  This is the exact decimal value that
JavaScript `parseFloat` rounds to a double. -/
def decValue (s : String) : Option ℚ :=
  let intPart := leadingDigits s.data
  match s.data.drop intPart.length with
  | '.' :: rest =>
      let fracPart := leadingDigits rest
      if intPart = [] ∧ fracPart = [] then none
      else some ((digitsVal intPart : ℚ) + (digitsVal fracPart : ℚ) / 10 ^ fracPart.length)
  | _ => if intPart = [] then none else some (digitsVal intPart)

/-! ## IEEE-754 binary64 rounding, modelled exactly over ℚ -/

/-- Round a rational to the nearest integer, ties to even (the IEEE-754
default rounding). -/
def roundTiesEven (q : ℚ) : ℤ :=
  if q - ⌊q⌋ < 1/2 then ⌊q⌋
  else if 1/2 < q - ⌊q⌋ then ⌊q⌋ + 1
  else if ⌊q⌋ % 2 = 0 then ⌊q⌋ else ⌊q⌋ + 1

/-- Round a rational to the nearest IEEE-754 binary64 value (53-bit
significand), for arguments in the normal finite range: the significand is
`roundTiesEven` of the argument scaled so that the leading bit has weight
`2^52`. -/
def fl (q : ℚ) : ℚ :=
  if q = 0 then 0
  else (if q < 0 then -1 else 1) *
    (roundTiesEven (|q| / 2 ^ (Int.log 2 |q| - 52)) : ℚ) * 2 ^ (Int.log 2 |q| - 52)

/-- JavaScript number multiplication: exact product, rounded to a double. -/
def jsMul (x y : ℚ) : ℚ := fl (x * y)

/-- Model of JavaScript `parseFloat(s)`: the nearest double to the decimal
value of the leading decimal literal of `s`, or `none` (`NaN`) when `s` has
no leading digits. -/
def jsParseFloat (s : String) : Option ℚ :=
  (decValue s).map fl

/-! ## Data model: Stripe and cart shapes -/

/-- Shipping/billing address inside a checkout session's
`customer_details`; every field may be absent. -/
structure Address where
  line1 : Option String
  line2 : Option String
  city : Option String
  state : Option String
  country : Option String
  postal_code : Option String
deriving DecidableEq

/-- A checkout session's `customer_details`; the `address` sub-object may
itself be absent. -/
structure CustomerDetails where
  name : Option String
  phone : Option String
  address : Option Address
deriving DecidableEq

/-- The checkout-session object carried by a webhook event
(`event.data.object`). -/
structure Session where
  id : String
  customer_details : Option CustomerDetails
  customer_email : Option String
deriving DecidableEq

/-- The `metadata` object attached to a price or product at
checkout-session creation; values may be absent on foreign sessions. -/
structure StripeMetadata where
  variant_id : Option String
  product_id : Option String
deriving DecidableEq

/-- The `price` object of a re-fetched line item (`listLineItems`); the
webhook reads `item.price.metadata`. -/
structure StripePrice where
  metadata : StripeMetadata
deriving DecidableEq

/-- A line item as returned by `stripeClient.checkout.sessions.listLineItems`. -/
structure StripeLineItem where
  price : StripePrice
  quantity : Nat
deriving DecidableEq

/-- The `price.product` object of an expanded line item
(`expand: line_items.data.price.product`); `handleCheckoutSessionCompleted`
reads `item.price.product.metadata`. -/
structure StripeProduct where
  metadata : StripeMetadata
deriving DecidableEq

/-- The `price` object of an expanded line item. -/
structure StripePriceExpanded where
  product : StripeProduct
deriving DecidableEq

/-- A line item of a session retrieved with product expansion. -/
structure ExpandedLineItem where
  price : StripePriceExpanded
  quantity : Nat
deriving DecidableEq

/-- The `data` wrapper of a Stripe event. -/
structure EventData where
  object : Session
deriving DecidableEq

/-- A verified Stripe event as returned by `webhooks.constructEvent`. -/
structure StripeEvent where
  type : String
  data : EventData
deriving DecidableEq

/-- A cart item as sent by the frontend to
`/api/stripe/create-checkout-session`. -/
structure CartItem where
  id : Nat
  name : String
  thumbnail_url : String
  price : Nat
  variant_id : Option Nat
  quantity : Nat
deriving DecidableEq

/-- `product_data` of a created checkout line item. -/
structure ProductData where
  name : String
  images : List String
deriving DecidableEq

/-- `price_data` of a created checkout line item (`server.js` places the
`metadata` on the price itself). -/
structure PriceData where
  currency : String
  product_data : ProductData
  unit_amount : Nat
  metadata : StripeMetadata
deriving DecidableEq

/-- One element of the `line_items` array passed to
`checkout.sessions.create`. -/
structure CheckoutLineItem where
  price_data : PriceData
  quantity : Nat
deriving DecidableEq

/-! ## Checkout-session creation (`server.js`, `/api/stripe/create-checkout-session`) -/

/-- The `cart.map(...)` of the checkout-session endpoint: one line item per
cart item, `unit_amount` is the caller-supplied `item.price` unchanged, the
quantity is the cart quantity, and the variant/product identifiers are
embedded as string metadata on the price. -/
def mkLineItems (cart : List CartItem) : List CheckoutLineItem :=
  cart.map fun item =>
    { price_data :=
        { currency := "usd"
          product_data := { name := item.name, images := [item.thumbnail_url] }
          unit_amount := item.price
          metadata :=
            { variant_id := some (jsStringOfNullable item.variant_id)
              product_id := some (jsStringOfNat item.id) } }
      quantity := item.quantity }

/-- Modelled from the spec: Stripe stores the metadata attached to each
priced line item opaquely and returns it unchanged when the session's line
items are re-fetched ("the identifier embedded as opaque metadata on each
priced item at checkout-session creation equals the identifier extracted
from that item's metadata at order translation"); quantities are likewise
preserved.  This models the payment processor, which is not part of this
repository. -/
def sessionLineItemsOf (created : List CheckoutLineItem) : List StripeLineItem :=
  created.map fun li => { price := { metadata := li.price_data.metadata }, quantity := li.quantity }

/-! ## Webhook handler (`server.js`, `POST /webhook`) -/

/-- One element of the `items` array submitted to the Printful orders API
by the `server.js` webhook.  `variant_id` is `parseInt` of the metadata
string; `none` models the `NaN` produced when the metadata is missing or
not numeric. -/
structure PrintfulItem where
  variant_id : Option Nat
  quantity : Nat
deriving DecidableEq

/-- The order payload posted to `https://api.printful.com/orders` by the
`server.js` webhook.  The recipient is kept as the literal key/value pairs
of the JavaScript object so that which keys exist is part of the model. -/
structure PrintfulOrder where
  recipient : List (String × String)
  items : List PrintfulItem
  confirm : Nat
deriving DecidableEq

/-- The `lineItems.data.map(...)` of the `server.js` webhook: extract
`item.price.metadata.variant_id`, `parseInt` it, keep the quantity.  No
item is dropped. -/
def lineItemToPrintful (item : StripeLineItem) : PrintfulItem :=
  { variant_id := item.price.metadata.variant_id.bind jsParseInt
    quantity := item.quantity }

/-- The full translation of re-fetched line items into Printful order
lines in the `server.js` webhook. -/
def printfulItemsOf (items : List StripeLineItem) : List PrintfulItem :=
  items.map lineItemToPrintful

/-- The recipient object built by the `server.js` webhook from
`session.customer_details` (with `address` present): names, address lines,
city, state, country and zip with their `||` defaults.  The object has no
`phone` and no `email` key. -/
def recipientOf (cd : CustomerDetails) (a : Address) : List (String × String) :=
  [("name", jsOrStr cd.name "No Name Provided"),
   ("address1", jsOrStr a.line1 ""),
   ("address2", jsOrStr a.line2 ""),
   ("city", jsOrStr a.city ""),
   ("state_code", jsOrStr a.state ""),
   ("country_code", jsOrStr a.country "US"),
   ("zip", jsOrStr a.postal_code "")]

/-- Which operation raised the error that the webhook handler's `catch`
block turned into a 400 response. -/
inductive WebhookError where
  | sigVerification
  | lineItemFetch
  | translation
deriving DecidableEq

/-- Observable outcome of one `POST /webhook` request in `server.js`: the
HTTP status, the source of the caught error (if any), how many line-item
re-fetch calls and fulfillment-API calls were made, the order payload
submitted to Printful (if any), and the outcome of that submission as seen
(and only logged) by the handler. -/
structure WebhookResult where
  status : Nat
  error : Option WebhookError
  lineItemCalls : Nat
  fulfillmentCalls : Nat
  submittedOrder : Option PrintfulOrder
  submitOutcome : Option (Except String Unit)

/-- The `server.js` `POST /webhook` handler.  `hmac` models the
signature-scheme of `webhooks.constructEvent`: verification succeeds
exactly when the header equals the MAC of the raw body under the endpoint
secret; `parseEvent` is the JSON decoding of the (verified) body;
`refetch` models `checkout.sessions.listLineItems`, `submitResult` the
outcome of the `axios.post` to Printful.  On any exception — signature
mismatch, a rejected line-item fetch, or the `TypeError` raised while
reading absent `customer_details` — the shared `catch` responds 400; a
Printful failure is caught by the inner `catch` and only logged, after
which the handler still responds 200. -/
def webhookHandler (hmac : String → String → String) (parseEvent : String → StripeEvent)
    (secret body sig : String)
    (refetch : String → Except String (List StripeLineItem))
    (submitResult : Except String Unit) : WebhookResult :=
  if sig = hmac secret body then
    if (parseEvent body).type = "checkout.session.completed" then
      match refetch (parseEvent body).data.object.id with
      | .error _ =>
          { status := 400, error := some .lineItemFetch, lineItemCalls := 1,
            fulfillmentCalls := 0, submittedOrder := none, submitOutcome := none }
      | .ok items =>
          match (parseEvent body).data.object.customer_details with
          | none =>
              { status := 400, error := some .translation, lineItemCalls := 1,
                fulfillmentCalls := 0, submittedOrder := none, submitOutcome := none }
          | some cd =>
              match cd.address with
              | none =>
                  { status := 400, error := some .translation, lineItemCalls := 1,
                    fulfillmentCalls := 0, submittedOrder := none, submitOutcome := none }
              | some a =>
                  { status := 200, error := none, lineItemCalls := 1,
                    fulfillmentCalls := 1,
                    submittedOrder := some
                      { recipient := recipientOf cd a, items := printfulItemsOf items,
                        confirm := 1 },
                    submitOutcome := some submitResult }
    else
      { status := 200, error := none, lineItemCalls := 0,
        fulfillmentCalls := 0, submittedOrder := none, submitOutcome := none }
  else
    { status := 400, error := some .sigVerification, lineItemCalls := 0,
      fulfillmentCalls := 0, submittedOrder := none, submitOutcome := none }

/-- Modelled from the Stripe API contract for `listLineItems` with a
`limit` parameter: at most `limit` line items are returned — the first
`limit` of the session's items (the handler does not paginate). -/
def stripeListLineItems (allItems : List StripeLineItem) (limit : Nat) : List StripeLineItem :=
  allItems.take limit

/-- The re-fetch call the `server.js` webhook makes:
`listLineItems(session.id, { limit: 100 })` against a Stripe-side store of
each session's full line-item list. -/
def listLineItemsCall (store : String → List StripeLineItem) (sid : String) :
    Except String (List StripeLineItem) :=
  .ok (stripeListLineItems (store sid) 100)

/-! ## `handleCheckoutSessionCompleted` (variant `src/unnamed/part_000`) -/

/-- One order line built by `handleCheckoutSessionCompleted`: the variant
identifier is forwarded as the metadata string itself (not parsed). -/
structure OrderItem where
  sync_variant_id : String
  quantity : Nat
deriving DecidableEq

/-- The recipient object built by `handleCheckoutSessionCompleted`: only
`name` and `phone` have `||` defaults; the address fields and the email
are copied raw (possibly absent). -/
structure OrderRecipient where
  name : String
  address1 : Option String
  city : Option String
  state_code : Option String
  country_code : Option String
  zip : Option String
  email : Option String
  phone : String
deriving DecidableEq

/-- The `orderData` payload posted to the Printful orders API by
`handleCheckoutSessionCompleted`. -/
structure OrderData where
  recipient : OrderRecipient
  items : List OrderItem
deriving DecidableEq

/-- The `.map(...).filter(Boolean)` of `handleCheckoutSessionCompleted`:
an item whose expanded product metadata lacks a truthy `variant_id` or a
truthy `product_id` is mapped to `null` and filtered out; a valid item
becomes one order line. -/
def orderItemsOf (line_items : List ExpandedLineItem) : List OrderItem :=
  line_items.filterMap fun item =>
    match item.price.product.metadata.variant_id, item.price.product.metadata.product_id with
    | some v, some p => if v = "" ∨ p = "" then none else some { sync_variant_id := v, quantity := item.quantity }
    | _, _ => none

/-- The recipient built by `handleCheckoutSessionCompleted` from the
session's customer details (with `address` present). -/
def mkOrderRecipient (session : Session) (cd : CustomerDetails) (a : Address) : OrderRecipient :=
  { name := jsOrStr cd.name "No Name"
    address1 := a.line1
    city := a.city
    state_code := a.state
    country_code := a.country
    zip := a.postal_code
    email := session.customer_email
    phone := jsOrStr cd.phone "" }

/-- `handleCheckoutSessionCompleted` of the `part_000` variant, given the
session and the line items of the expanded session retrieve.  The result
is the order payload submitted to the fulfillment API, or `none` when
submission was aborted (all items dropped, or customer details / address
absent — each such condition raises, is caught by the function's own
`catch`, and is only logged). -/
def handleCheckoutSessionCompleted (session : Session) (line_items : List ExpandedLineItem) :
    Option OrderData :=
  let orderItems := orderItemsOf line_items
  if orderItems = [] then none
  else
    match session.customer_details with
    | none => none
    | some cd =>
        match cd.address with
        | none => none
        | some a => some { recipient := mkOrderRecipient session cd a, items := orderItems }

/-- The `part_000` webhook route's HTTP status: `handleCheckoutSessionCompleted`
is invoked without `await` and swallows its own errors, so once the
signature verifies the route acknowledges 200 whatever the translation and
submission outcome; a verification failure yields 400. -/
def webhookAck (hmac : String → String → String) (secret body sig : String) : Nat :=
  if sig = hmac secret body then 200 else 400

/-! ## Product catalog endpoints (`server.js`) -/

/-- A file attached to a sync variant; the mapper looks for
`type === 'preview'` and reads its `preview_url`. -/
structure SyncFile where
  type : Option String
  preview_url : Option String
deriving DecidableEq

/-- A Printful sync variant as consumed by the catalog endpoints.  `files`
may be absent (accessing `.find` on it then throws). -/
structure SyncVariant where
  id : Option Nat
  name : Option String
  retail_price : Option String
  files : Option (List SyncFile)
deriving DecidableEq

/-- An element of the Printful store-products list response. -/
structure ProductSummary where
  id : Nat
  name : Option String
  thumbnail_url : Option String
deriving DecidableEq

/-- The detail payload fetched per product inside `/api/products`;
`sync_variants` may be absent. -/
structure ProductDetails where
  sync_variants : Option (List SyncVariant)
deriving DecidableEq

/-- One element of the `/api/products` response. -/
structure ListedProduct where
  id : Nat
  name : String
  thumbnail_url : String
  price : Option ℚ
  variant_id : Option Nat
deriving DecidableEq

/-- The first variant's preview URL chain of the `/api/products` mapper:
`details.sync_variants[0]?.files.find(f => f.type === 'preview')?.preview_url`.
`none` as outer result models the `TypeError` thrown when `sync_variants`
is absent, or when the first variant exists but its `files` is absent. -/
def mockupImageOf (details : ProductDetails) : Option (Option String) :=
  match details.sync_variants with
  | none => none
  | some vs =>
      match vs.head? with
      | none => some none
      | some v0 =>
          match v0.files with
          | none => none
          | some fs => some ((fs.find? fun file => file.type = some "preview").bind SyncFile.preview_url)

/-- The price expression of the `/api/products` mapper:
`sync_variants?.[0]?.retail_price ? parseFloat(...) * 100 : 0`.  The inner
`none` models `NaN`. -/
def listPriceOf (details : ProductDetails) : Option ℚ :=
  let rp := (details.sync_variants.bind List.head?).bind SyncVariant.retail_price
  if jsTruthy rp then (rp.bind jsParseFloat).map (fun x => jsMul x 100) else some 0

/-- The per-product mapper of `/api/products`: name defaulted with
`|| 'No name available'`, thumbnail from the preview-image chain with
`|| product.thumbnail_url || 'default_image_url'`, price from
`retail_price`, `variant_id` as `sync_variants?.[0]?.id || null` (`|| null`
also nulls the id 0).  `none` models the mapper throwing (and the request
ending 500). -/
def mapListProduct (product : ProductSummary) (details : ProductDetails) :
    Option ListedProduct :=
  match mockupImageOf details with
  | none => none
  | some mockupImage =>
      some { id := product.id
             name := jsOrStr product.name "No name available"
             thumbnail_url := jsOrStr (jsOr mockupImage product.thumbnail_url) "default_image_url"
             price := listPriceOf details
             variant_id :=
               match (details.sync_variants.bind List.head?).bind SyncVariant.id with
               | some n => if n = 0 then none else some n
               | none => none }

/-- The `sync_product` object of the single-product detail response. -/
structure SyncProduct where
  id : Nat
  name : Option String
  description : Option String
  thumbnail_url : Option String
deriving DecidableEq

/-- The Printful single-product response consumed by `/api/products/:id`. -/
structure ProductResult where
  sync_product : SyncProduct
  sync_variants : List SyncVariant
deriving DecidableEq

/-- One variant of the `/api/products/:id` response. -/
structure VariantDetails where
  id : Option Nat
  name : Option String
  price : Option ℚ
  thumbnail_url : Option String
deriving DecidableEq

/-- The `/api/products/:id` response shape. -/
structure ProductDetailsResponse where
  id : Nat
  name : Option String
  description : String
  thumbnail_url : Option String
  variants : List VariantDetails
deriving DecidableEq

/-- The variant price of `/api/products/:id`:
`parseFloat(variant.retail_price) * 100`; `none` models `NaN` (absent or
non-numeric `retail_price`). -/
def variantPriceOf (retail_price : Option String) : Option ℚ :=
  (retail_price.bind jsParseFloat).map fun x => jsMul x 100

/-- The mapper of `/api/products/:id`: the description gets the
`|| 'No description available'` default; the product name and thumbnail
are copied through with no default; each variant's `thumbnail_url` is
`files?.find(f => f.type === 'preview')?.preview_url || null` — it never
falls back to the product thumbnail. -/
def mapProductDetail (product : ProductResult) : ProductDetailsResponse :=
  { id := product.sync_product.id
    name := product.sync_product.name
    description := jsOrStr product.sync_product.description "No description available"
    thumbnail_url := product.sync_product.thumbnail_url
    variants := product.sync_variants.map fun variant =>
      { id := variant.id
        name := variant.name
        price := variantPriceOf variant.retail_price
        thumbnail_url :=
          jsOr ((variant.files.bind fun fs =>
            fs.find? fun file => file.type = some "preview").bind SyncFile.preview_url) none } }

/-! ## Helper lemmas: decimal round trip of `String(n)` and `parseInt` -/

lemma digitChar_isDigit {d : Nat} (hd : d < 10) : (Char.ofNat (48 + d)).isDigit = true := by
  interval_cases d <;> decide

lemma digitChar_toNat {d : Nat} (hd : d < 10) : (Char.ofNat (48 + d)).toNat = 48 + d := by
  interval_cases d <;> decide

lemma leadingDigits_of_all {l : List Char} (h : ∀ c ∈ l, c.isDigit = true) :
    leadingDigits l = l := by
  induction l with
  | nil => rfl
  | cons c cs ih =>
      rw [leadingDigits, if_pos (h c (List.mem_cons_self c cs)),
        ih fun x hx => h x (List.mem_cons_of_mem c hx)]

lemma foldl_digitChars (l : List Nat) (hl : ∀ d ∈ l, d < 10) (a : Nat) :
    (l.map fun d => Char.ofNat (48 + d)).foldl (fun a c => 10 * a + (c.toNat - 48)) a =
      l.foldl (fun a d => 10 * a + d) a := by
  induction l generalizing a with
  | nil => rfl
  | cons d ds ih =>
      have hd : d < 10 := hl d (List.mem_cons_self d ds)
      simp only [List.map_cons, List.foldl_cons,
        digitChar_toNat hd, Nat.add_sub_cancel_left]
      exact ih (fun x hx => hl x (List.mem_cons_of_mem d hx)) _

lemma foldr_base10 (l : List Nat) :
    l.foldr (fun d a => 10 * a + d) 0 = Nat.ofDigits 10 l := by
  induction l with
  | nil => rfl
  | cons d ds ih =>
      rw [List.foldr_cons, ih, Nat.ofDigits_cons]
      ring

lemma digitsVal_digits (n : Nat) :
    digitsVal ((Nat.digits 10 n).reverse.map fun d => Char.ofNat (48 + d)) = n := by
  unfold digitsVal
  rw [foldl_digitChars _ (fun d hd =>
      Nat.digits_lt_base (by norm_num) (List.mem_reverse.mp hd)) 0,
    List.foldl_reverse]
  exact (foldr_base10 (Nat.digits 10 n)).trans (Nat.ofDigits_digits 10 n)

lemma jsParseInt_mk {l : List Char} (h : l ≠ []) (hd : leadingDigits l = l) :
    jsParseInt ⟨l⟩ = some (digitsVal l) := by
  unfold jsParseInt
  rw [show (String.mk l).data = l from rfl, hd]
  cases l with
  | nil => exact absurd rfl h
  | cons c cs => rfl

lemma jsParseInt_jsStringOfNat (n : Nat) : jsParseInt (jsStringOfNat n) = some n := by
  by_cases h0 : n = 0
  · subst h0; rfl
  · have hdig : ∀ c ∈ (Nat.digits 10 n).reverse.map fun d => Char.ofNat (48 + d),
        c.isDigit = true := by
      intro c hc
      obtain ⟨d, hd, rfl⟩ := List.mem_map.mp hc
      exact digitChar_isDigit (Nat.digits_lt_base (by norm_num) (List.mem_reverse.mp hd))
    have hne : (Nat.digits 10 n).reverse.map (fun d => Char.ofNat (48 + d)) ≠ [] := by
      simp [Nat.digits_ne_nil_iff_ne_zero.mpr h0]
    rw [jsStringOfNat, if_neg h0,
      jsParseInt_mk hne (leadingDigits_of_all hdig), digitsVal_digits n]

/-! ## Helper lemmas: evaluating the double-rounding model -/

lemma intLog_eq {q : ℚ} {e : ℤ} (h1 : (2:ℚ) ^ e ≤ q) (h2 : q < (2:ℚ) ^ (e + 1)) :
    Int.log 2 q = e := by
  have hq : (0:ℚ) < q := lt_of_lt_of_le (zpow_pos (by norm_num) e) h1
  have h1' : ((2:ℕ):ℚ) ^ e ≤ q := by exact_mod_cast h1
  have h2' : q < ((2:ℕ):ℚ) ^ (e + 1) := by exact_mod_cast h2
  have hle : e ≤ Int.log 2 q := (Int.zpow_le_iff_le_log (by norm_num) hq).mp h1'
  have hlt : Int.log 2 q < e + 1 := (Int.lt_zpow_iff_log_lt (by norm_num) hq).mp h2'
  omega

lemma roundTiesEven_eq_floor {q : ℚ} (h : q - ⌊q⌋ < 1/2) : roundTiesEven q = ⌊q⌋ := by
  unfold roundTiesEven
  rw [if_pos h]

lemma fl_of_pos {q : ℚ} (hq : 0 < q) :
    fl q = (roundTiesEven (q / 2 ^ (Int.log 2 q - 52)) : ℚ) * 2 ^ (Int.log 2 q - 52) := by
  unfold fl
  rw [if_neg (ne_of_gt hq), abs_of_pos hq, if_neg (not_lt.mpr hq.le)]
  ring

lemma fl_19_99 : fl (1999/100) = 5626684784446013 / 2^48 := by
  have hq : (0:ℚ) < 1999/100 := by norm_num
  have hlog : Int.log 2 ((1999:ℚ)/100) = 4 := by
    apply intLog_eq <;> norm_num
  rw [fl_of_pos hq, hlog]
  have hu : ((2:ℚ) ^ ((4:ℤ) - 52)) = 1/2^48 := by norm_num [zpow_sub₀]
  rw [hu]
  have harg : (1999:ℚ)/100 / (1/2^48) = 140667119611150336/25 := by norm_num
  rw [harg]
  have hfl : ⌊(140667119611150336:ℚ)/25⌋ = 5626684784446013 := by
    rw [Int.floor_eq_iff]
    norm_num
  have hlt : (140667119611150336:ℚ)/25 - ⌊(140667119611150336:ℚ)/25⌋ < 1/2 := by
    rw [hfl]
    norm_num
  rw [roundTiesEven_eq_floor hlt, hfl]
  norm_num

lemma fl_19_99_times_100 : fl ((5626684784446013:ℚ) / 2^48 * 100) = 1999 - 1/2^42 := by
  have hrw : (5626684784446013:ℚ) / 2^48 * 100 = 562668478444601300/2^48 := by norm_num
  rw [hrw]
  have hq : (0:ℚ) < 562668478444601300/2^48 := by norm_num
  have hlog : Int.log 2 ((562668478444601300:ℚ)/2^48) = 10 := by
    apply intLog_eq <;> norm_num
  rw [fl_of_pos hq, hlog]
  have hu : ((2:ℚ) ^ ((10:ℤ) - 52)) = 1/2^42 := by norm_num [zpow_sub₀]
  rw [hu]
  have harg : (562668478444601300:ℚ)/2^48 / (1/2^42) = 562668478444601300/64 := by norm_num
  rw [harg]
  have hfl : ⌊(562668478444601300:ℚ)/64⌋ = 8791694975696895 := by
    rw [Int.floor_eq_iff]
    norm_num
  have hlt : (562668478444601300:ℚ)/64 - ⌊(562668478444601300:ℚ)/64⌋ < 1/2 := by
    rw [hfl]
    norm_num
  rw [roundTiesEven_eq_floor hlt, hfl]
  norm_num

lemma decValue_19_99 : decValue "19.99" = some (1999/100) := by
  have h1 : decValue "19.99" = some ((digitsVal ['1','9'] : ℚ) +
      (digitsVal ['9','9'] : ℚ) / 10 ^ (['9','9'] : List Char).length) := rfl
  have h2 : digitsVal ['1','9'] = 19 := rfl
  have h3 : digitsVal ['9','9'] = 99 := rfl
  rw [h1, h2, h3]
  norm_num

/-! ## Claims -/

/-- C1: a `POST /webhook` request whose `stripe-signature` header does not
verify against the raw body under the shared endpoint secret is answered
400 with zero line-item re-fetch calls, zero fulfillment-API calls and no
order submitted; a request whose body is unmodified and signed with the
correct secret passes verification and is never answered 400 on signature
grounds. -/
theorem webhook_signature_gate (hmac : String → String → String)
    (parseEvent : String → StripeEvent) (secret body sig : String)
    (refetch : String → Except String (List StripeLineItem))
    (submitResult : Except String Unit) :
    (sig ≠ hmac secret body →
      (webhookHandler hmac parseEvent secret body sig refetch submitResult).status = 400 ∧
      (webhookHandler hmac parseEvent secret body sig refetch submitResult).error =
        some WebhookError.sigVerification ∧
      (webhookHandler hmac parseEvent secret body sig refetch submitResult).lineItemCalls = 0 ∧
      (webhookHandler hmac parseEvent secret body sig refetch submitResult).fulfillmentCalls = 0 ∧
      (webhookHandler hmac parseEvent secret body sig refetch submitResult).submittedOrder = none) ∧
    (sig = hmac secret body →
      (webhookHandler hmac parseEvent secret body sig refetch submitResult).error ≠
        some WebhookError.sigVerification) := by
  constructor
  · intro h
    unfold webhookHandler
    rw [if_neg h]
    exact ⟨rfl, rfl, rfl, rfl, rfl⟩
  · intro h
    unfold webhookHandler
    rw [if_pos h]
    split
    · split
      · simp
      · split
        · simp
        · split
          · simp
          · simp
    · simp

/-- Witness for C1 at concrete inputs: a mismatched header is rejected with
no fulfillment call, and a matching header is not rejected on signature
grounds. -/
theorem webhook_signature_gate_witness :
    ((webhookHandler (fun s b => s ++ b)
        (fun _ => ⟨"checkout.session.completed", ⟨⟨"sess_1", none, none⟩⟩⟩)
        "whsec" "payload" "bogus" (fun _ => Except.ok []) (Except.ok ())).status = 400 ∧
      (webhookHandler (fun s b => s ++ b)
        (fun _ => ⟨"checkout.session.completed", ⟨⟨"sess_1", none, none⟩⟩⟩)
        "whsec" "payload" "bogus" (fun _ => Except.ok []) (Except.ok ())).error =
        some WebhookError.sigVerification ∧
      (webhookHandler (fun s b => s ++ b)
        (fun _ => ⟨"checkout.session.completed", ⟨⟨"sess_1", none, none⟩⟩⟩)
        "whsec" "payload" "bogus" (fun _ => Except.ok []) (Except.ok ())).lineItemCalls = 0 ∧
      (webhookHandler (fun s b => s ++ b)
        (fun _ => ⟨"checkout.session.completed", ⟨⟨"sess_1", none, none⟩⟩⟩)
        "whsec" "payload" "bogus" (fun _ => Except.ok []) (Except.ok ())).fulfillmentCalls = 0 ∧
      (webhookHandler (fun s b => s ++ b)
        (fun _ => ⟨"checkout.session.completed", ⟨⟨"sess_1", none, none⟩⟩⟩)
        "whsec" "payload" "bogus" (fun _ => Except.ok []) (Except.ok ())).submittedOrder = none) ∧
    (webhookHandler (fun s b => s ++ b)
        (fun _ => ⟨"checkout.session.completed", ⟨⟨"sess_1", none, none⟩⟩⟩)
        "whsec" "payload" "whsecpayload" (fun _ => Except.ok []) (Except.ok ())).error ≠
        some WebhookError.sigVerification :=
  ⟨(webhook_signature_gate (fun s b => s ++ b)
      (fun _ => ⟨"checkout.session.completed", ⟨⟨"sess_1", none, none⟩⟩⟩)
      "whsec" "payload" "bogus" (fun _ => Except.ok []) (Except.ok ())).1 (by decide),
   (webhook_signature_gate (fun s b => s ++ b)
      (fun _ => ⟨"checkout.session.completed", ⟨⟨"sess_1", none, none⟩⟩⟩)
      "whsec" "payload" "whsecpayload" (fun _ => Except.ok []) (Except.ok ())).2 (by decide)⟩

/-- C3: a verified event of any kind other than `checkout.session.completed`
is acknowledged 200 with zero line-item re-fetch calls and zero
fulfillment-API calls — a no-op, not an error. -/
theorem webhook_other_event_noop (hmac : String → String → String)
    (parseEvent : String → StripeEvent) (secret body sig : String)
    (refetch : String → Except String (List StripeLineItem))
    (submitResult : Except String Unit)
    (hsig : sig = hmac secret body)
    (htype : (parseEvent body).type ≠ "checkout.session.completed") :
    (webhookHandler hmac parseEvent secret body sig refetch submitResult).status = 200 ∧
    (webhookHandler hmac parseEvent secret body sig refetch submitResult).error = none ∧
    (webhookHandler hmac parseEvent secret body sig refetch submitResult).lineItemCalls = 0 ∧
    (webhookHandler hmac parseEvent secret body sig refetch submitResult).fulfillmentCalls = 0 ∧
    (webhookHandler hmac parseEvent secret body sig refetch submitResult).submittedOrder = none := by
  unfold webhookHandler
  rw [if_pos hsig, if_neg htype]
  exact ⟨rfl, rfl, rfl, rfl, rfl⟩

/-- Witness for C3: a verified `payment_intent.succeeded` delivery is a
200 no-op. -/
theorem webhook_other_event_noop_witness :
    (webhookHandler (fun s b => s ++ b)
      (fun _ => ⟨"payment_intent.succeeded", ⟨⟨"sess_1", none, none⟩⟩⟩)
      "whsec" "payload" "whsecpayload" (fun _ => Except.ok []) (Except.ok ())).status = 200 ∧
    (webhookHandler (fun s b => s ++ b)
      (fun _ => ⟨"payment_intent.succeeded", ⟨⟨"sess_1", none, none⟩⟩⟩)
      "whsec" "payload" "whsecpayload" (fun _ => Except.ok []) (Except.ok ())).error = none ∧
    (webhookHandler (fun s b => s ++ b)
      (fun _ => ⟨"payment_intent.succeeded", ⟨⟨"sess_1", none, none⟩⟩⟩)
      "whsec" "payload" "whsecpayload" (fun _ => Except.ok []) (Except.ok ())).lineItemCalls = 0 ∧
    (webhookHandler (fun s b => s ++ b)
      (fun _ => ⟨"payment_intent.succeeded", ⟨⟨"sess_1", none, none⟩⟩⟩)
      "whsec" "payload" "whsecpayload" (fun _ => Except.ok []) (Except.ok ())).fulfillmentCalls = 0 ∧
    (webhookHandler (fun s b => s ++ b)
      (fun _ => ⟨"payment_intent.succeeded", ⟨⟨"sess_1", none, none⟩⟩⟩)
      "whsec" "payload" "whsecpayload" (fun _ => Except.ok []) (Except.ok ())).submittedOrder = none :=
  webhook_other_event_noop (fun s b => s ++ b)
    (fun _ => ⟨"payment_intent.succeeded", ⟨⟨"sess_1", none, none⟩⟩⟩)
    "whsec" "payload" "whsecpayload" (fun _ => Except.ok []) (Except.ok ())
    (by decide) (by decide)

/-- C2 counterexample: a request that passes signature verification, with a
`checkout.session.completed` event, whose line-item re-fetch fails, is
answered 400 — not 200 as the claim states for every verified event. -/
theorem webhook_ack_counterexample :
    "whsecpayload" = (fun s b => s ++ b) "whsec" "payload" ∧
    (webhookHandler (fun s b => s ++ b)
      (fun _ => ⟨"checkout.session.completed", ⟨⟨"sess_1", none, none⟩⟩⟩)
      "whsec" "payload" "whsecpayload"
      (fun _ => Except.error "stripe unreachable") (Except.ok ())).status = 400 := by
  exact ⟨rfl, rfl⟩

/-- C2 (amended): the handler responds 400 when signature verification
fails; after verification, a failure of the line-item re-fetch, and
likewise the `TypeError` of order translation on absent customer details
or an absent address, is caught by the same `catch` and also yields a
400; once the line items are fetched and the recipient is built, the
handler responds 200 whatever the fulfillment-submission outcome. -/
theorem webhook_ack_amended (hmac : String → String → String)
    (parseEvent : String → StripeEvent) (secret body sig : String)
    (refetch : String → Except String (List StripeLineItem))
    (submitResult : Except String Unit) :
    (sig ≠ hmac secret body →
      (webhookHandler hmac parseEvent secret body sig refetch submitResult).status = 400) ∧
    (sig = hmac secret body →
      (parseEvent body).type ≠ "checkout.session.completed" →
      (webhookHandler hmac parseEvent secret body sig refetch submitResult).status = 200) ∧
    (sig = hmac secret body →
      (parseEvent body).type = "checkout.session.completed" →
      ∀ msg, refetch (parseEvent body).data.object.id = Except.error msg →
      (webhookHandler hmac parseEvent secret body sig refetch submitResult).status = 400) ∧
    (sig = hmac secret body →
      (parseEvent body).type = "checkout.session.completed" →
      ∀ items, refetch (parseEvent body).data.object.id = Except.ok items →
      (parseEvent body).data.object.customer_details = none →
      (webhookHandler hmac parseEvent secret body sig refetch submitResult).status = 400 ∧
      (webhookHandler hmac parseEvent secret body sig refetch submitResult).error =
        some WebhookError.translation) ∧
    (sig = hmac secret body →
      (parseEvent body).type = "checkout.session.completed" →
      ∀ items cd, refetch (parseEvent body).data.object.id = Except.ok items →
      (parseEvent body).data.object.customer_details = some cd →
      cd.address = none →
      (webhookHandler hmac parseEvent secret body sig refetch submitResult).status = 400 ∧
      (webhookHandler hmac parseEvent secret body sig refetch submitResult).error =
        some WebhookError.translation) ∧
    (sig = hmac secret body →
      (parseEvent body).type = "checkout.session.completed" →
      ∀ items cd a, refetch (parseEvent body).data.object.id = Except.ok items →
      (parseEvent body).data.object.customer_details = some cd →
      cd.address = some a →
      (webhookHandler hmac parseEvent secret body sig refetch submitResult).status = 200 ∧
      (webhookHandler hmac parseEvent secret body sig refetch submitResult).submitOutcome =
        some submitResult) := by
  refine ⟨?_, ?_, ?_, ?_, ?_, ?_⟩
  · intro h
    unfold webhookHandler
    rw [if_neg h]
  · intro h ht
    unfold webhookHandler
    rw [if_pos h, if_neg ht]
  · intro h ht msg hre
    unfold webhookHandler
    rw [if_pos h, if_pos ht, hre]
  · intro h ht items hre hcd
    simp only [webhookHandler, if_pos h, if_pos ht, hre, hcd]
    exact ⟨trivial, trivial⟩
  · intro h ht items cd hre hcd ha
    simp only [webhookHandler, if_pos h, if_pos ht, hre, hcd, ha]
    exact ⟨trivial, trivial⟩
  · intro h ht items cd a hre hcd ha
    simp only [webhookHandler, if_pos h, if_pos ht, hre, hcd, ha]
    exact ⟨trivial, trivial⟩

/-- Witness for the amended C2: at concrete inputs, a verified completed
event with a successful re-fetch is acknowledged 200 even though the
fulfillment submission failed; a verified completed event whose session
lacks customer details is answered 400 by the translation path; and an
unverified request gets 400. -/
theorem webhook_ack_amended_witness :
    (webhookHandler (fun s b => s ++ b)
      (fun _ => ⟨"checkout.session.completed",
        ⟨⟨"sess_1", some ⟨some "Ann", none, some ⟨some "1 Main St", none, some "Springfield",
          some "IL", some "US", some "62704"⟩⟩, none⟩⟩⟩)
      "whsec" "payload" "whsecpayload" (fun _ => Except.ok [])
      (Except.error "printful 500")).status = 200 ∧
    (webhookHandler (fun s b => s ++ b)
      (fun _ => ⟨"checkout.session.completed",
        ⟨⟨"sess_1", some ⟨some "Ann", none, some ⟨some "1 Main St", none, some "Springfield",
          some "IL", some "US", some "62704"⟩⟩, none⟩⟩⟩)
      "whsec" "payload" "whsecpayload" (fun _ => Except.ok [])
      (Except.error "printful 500")).submitOutcome = some (Except.error "printful 500") ∧
    (webhookHandler (fun s b => s ++ b)
      (fun _ => ⟨"checkout.session.completed", ⟨⟨"sess_1", none, none⟩⟩⟩)
      "whsec" "payload" "whsecpayload" (fun _ => Except.ok [])
      (Except.error "printful 500")).status = 400 ∧
    (webhookHandler (fun s b => s ++ b)
      (fun _ => ⟨"checkout.session.completed",
        ⟨⟨"sess_1", some ⟨some "Ann", none, none⟩, none⟩⟩⟩)
      "whsec" "payload" "whsecpayload" (fun _ => Except.ok [])
      (Except.error "printful 500")).status = 400 ∧
    (webhookHandler (fun s b => s ++ b)
      (fun _ => ⟨"checkout.session.completed",
        ⟨⟨"sess_1", some ⟨some "Ann", none, some ⟨some "1 Main St", none, some "Springfield",
          some "IL", some "US", some "62704"⟩⟩, none⟩⟩⟩)
      "whsec" "payload" "bogus" (fun _ => Except.ok [])
      (Except.error "printful 500")).status = 400 := by
  refine ⟨?_, ?_, ?_, ?_, ?_⟩
  · exact ((webhook_ack_amended (fun s b => s ++ b)
      (fun _ => ⟨"checkout.session.completed",
        ⟨⟨"sess_1", some ⟨some "Ann", none, some ⟨some "1 Main St", none, some "Springfield",
          some "IL", some "US", some "62704"⟩⟩, none⟩⟩⟩)
      "whsec" "payload" "whsecpayload" (fun _ => Except.ok [])
      (Except.error "printful 500")).2.2.2.2.2 (by decide) (by decide) []
        ⟨some "Ann", none, some ⟨some "1 Main St", none, some "Springfield",
          some "IL", some "US", some "62704"⟩⟩
        ⟨some "1 Main St", none, some "Springfield", some "IL", some "US", some "62704"⟩
        rfl rfl rfl).1
  · exact ((webhook_ack_amended (fun s b => s ++ b)
      (fun _ => ⟨"checkout.session.completed",
        ⟨⟨"sess_1", some ⟨some "Ann", none, some ⟨some "1 Main St", none, some "Springfield",
          some "IL", some "US", some "62704"⟩⟩, none⟩⟩⟩)
      "whsec" "payload" "whsecpayload" (fun _ => Except.ok [])
      (Except.error "printful 500")).2.2.2.2.2 (by decide) (by decide) []
        ⟨some "Ann", none, some ⟨some "1 Main St", none, some "Springfield",
          some "IL", some "US", some "62704"⟩⟩
        ⟨some "1 Main St", none, some "Springfield", some "IL", some "US", some "62704"⟩
        rfl rfl rfl).2
  · exact ((webhook_ack_amended (fun s b => s ++ b)
      (fun _ => ⟨"checkout.session.completed", ⟨⟨"sess_1", none, none⟩⟩⟩)
      "whsec" "payload" "whsecpayload" (fun _ => Except.ok [])
      (Except.error "printful 500")).2.2.2.1 (by decide) (by decide) []
        rfl rfl).1
  · exact ((webhook_ack_amended (fun s b => s ++ b)
      (fun _ => ⟨"checkout.session.completed",
        ⟨⟨"sess_1", some ⟨some "Ann", none, none⟩, none⟩⟩⟩)
      "whsec" "payload" "whsecpayload" (fun _ => Except.ok [])
      (Except.error "printful 500")).2.2.2.2.1 (by decide) (by decide) []
        ⟨some "Ann", none, none⟩ rfl rfl rfl).1
  · exact (webhook_ack_amended (fun s b => s ++ b)
      (fun _ => ⟨"checkout.session.completed",
        ⟨⟨"sess_1", some ⟨some "Ann", none, some ⟨some "1 Main St", none, some "Springfield",
          some "IL", some "US", some "62704"⟩⟩, none⟩⟩⟩)
      "whsec" "payload" "bogus" (fun _ => Except.ok [])
      (Except.error "printful 500")).1 (by decide)

/-- C10: for a verified `checkout.session.completed` event the handler
re-fetches line items with `limit: 100`, so the submitted fulfillment
order holds one line per fetched item — the first at-most-100 of the
session's line items — and never more than 100 lines; items beyond the
first 100 are omitted. -/
theorem webhook_refetch_limit (store : String → List StripeLineItem)
    (hmac : String → String → String) (parseEvent : String → StripeEvent)
    (secret body sig : String) (submitResult : Except String Unit)
    (cd : CustomerDetails) (a : Address)
    (hsig : sig = hmac secret body)
    (htype : (parseEvent body).type = "checkout.session.completed")
    (hcd : (parseEvent body).data.object.customer_details = some cd)
    (ha : cd.address = some a) :
    (webhookHandler hmac parseEvent secret body sig (listLineItemsCall store)
        submitResult).submittedOrder =
      some { recipient := recipientOf cd a,
             items := printfulItemsOf ((store (parseEvent body).data.object.id).take 100),
             confirm := 1 } ∧
    ∀ o, (webhookHandler hmac parseEvent secret body sig (listLineItemsCall store)
        submitResult).submittedOrder = some o → o.items.length ≤ 100 := by
  constructor
  · simp only [webhookHandler, if_pos hsig, if_pos htype, listLineItemsCall,
      stripeListLineItems, hcd, ha]
  · intro o ho
    simp only [webhookHandler, if_pos hsig, if_pos htype, listLineItemsCall,
      stripeListLineItems, hcd, ha, Option.some_inj] at ho
    rw [← ho]
    simp only [printfulItemsOf, List.length_map, List.length_take]
    exact min_le_left 100 _

/-- Witness for C10 at a concrete store of three line items. -/
theorem webhook_refetch_limit_witness :
    (webhookHandler (fun s b => s ++ b)
        (fun _ => ⟨"checkout.session.completed",
          ⟨⟨"sess_1", some ⟨some "Ann", none, some ⟨some "1 Main St", none,
            some "Springfield", some "IL", some "US", some "62704"⟩⟩, none⟩⟩⟩)
        "whsec" "payload" "whsecpayload"
        (listLineItemsCall fun _ =>
          [⟨⟨⟨some "11", some "1"⟩⟩, 1⟩, ⟨⟨⟨some "22", some "2"⟩⟩, 2⟩,
           ⟨⟨⟨some "33", some "3"⟩⟩, 3⟩])
        (Except.ok ())).submittedOrder =
      some { recipient := recipientOf
               ⟨some "Ann", none, some ⟨some "1 Main St", none, some "Springfield",
                 some "IL", some "US", some "62704"⟩⟩
               ⟨some "1 Main St", none, some "Springfield", some "IL", some "US", some "62704"⟩,
             items := printfulItemsOf
               (([⟨⟨⟨some "11", some "1"⟩⟩, 1⟩, ⟨⟨⟨some "22", some "2"⟩⟩, 2⟩,
                 ⟨⟨⟨some "33", some "3"⟩⟩, 3⟩] : List StripeLineItem).take 100),
             confirm := 1 } :=
  (webhook_refetch_limit
    (fun _ => [⟨⟨⟨some "11", some "1"⟩⟩, 1⟩, ⟨⟨⟨some "22", some "2"⟩⟩, 2⟩,
               ⟨⟨⟨some "33", some "3"⟩⟩, 3⟩])
    (fun s b => s ++ b)
    (fun _ => ⟨"checkout.session.completed",
      ⟨⟨"sess_1", some ⟨some "Ann", none, some ⟨some "1 Main St", none,
        some "Springfield", some "IL", some "US", some "62704"⟩⟩, none⟩⟩⟩)
    "whsec" "payload" "whsecpayload" (Except.ok ())
    ⟨some "Ann", none, some ⟨some "1 Main St", none, some "Springfield",
      some "IL", some "US", some "62704"⟩⟩
    ⟨some "1 Main St", none, some "Springfield", some "IL", some "US", some "62704"⟩
    (by decide) (by decide) rfl rfl).1

/-- The variant identifier a cart item carries survives the round trip
through `String(...)` at session creation and `parseInt(..., 10)` at order
translation. -/
lemma variant_id_roundtrip (item : CartItem) (h : item.variant_id.isSome) :
    jsParseInt (jsStringOfNullable item.variant_id) = item.variant_id := by
  obtain ⟨v, hv⟩ := Option.isSome_iff_exists.mp h
  rw [hv]
  exact jsParseInt_jsStringOfNat v

/-- C4: when every cart item carries a variant identifier, the identifier
embedded as metadata at checkout-session creation equals the identifier
extracted at order translation, so a completed session for that cart
yields a fulfillment order with exactly one line per cart item whose
variant identifiers and quantities match the cart, and a recipient built
from the session's customer/shipping details. -/
theorem metadata_roundtrip_order (hmac : String → String → String)
    (parseEvent : String → StripeEvent) (secret body sig : String)
    (submitResult : Except String Unit) (cart : List CartItem)
    (cd : CustomerDetails) (a : Address)
    (hsig : sig = hmac secret body)
    (htype : (parseEvent body).type = "checkout.session.completed")
    (hcd : (parseEvent body).data.object.customer_details = some cd)
    (ha : cd.address = some a)
    (hvar : ∀ item ∈ cart, item.variant_id.isSome) :
    (webhookHandler hmac parseEvent secret body sig
        (fun _ => Except.ok (sessionLineItemsOf (mkLineItems cart)))
        submitResult).submittedOrder =
      some { recipient := recipientOf cd a,
             items := cart.map fun item =>
               { variant_id := item.variant_id, quantity := item.quantity },
             confirm := 1 } ∧
    (printfulItemsOf (sessionLineItemsOf (mkLineItems cart))).length = cart.length := by
  have hitems : printfulItemsOf (sessionLineItemsOf (mkLineItems cart)) =
      cart.map fun item => { variant_id := item.variant_id, quantity := item.quantity } := by
    simp only [printfulItemsOf, sessionLineItemsOf, mkLineItems, List.map_map]
    apply List.map_congr_left
    intro item hitem
    simp only [Function.comp, lineItemToPrintful, Option.some_bind]
    rw [variant_id_roundtrip item (hvar item hitem)]
  constructor
  · simp only [webhookHandler, if_pos hsig, if_pos htype, hcd, ha, hitems]
  · rw [hitems, List.length_map]

/-- Witness for C4: a concrete two-item cart yields a two-line order with
matching variant ids and quantities and the session's recipient. -/
theorem metadata_roundtrip_order_witness :
    (webhookHandler (fun s b => s ++ b)
        (fun _ => ⟨"checkout.session.completed",
          ⟨⟨"sess_1", some ⟨some "Ann", none, some ⟨some "1 Main St", none,
            some "Springfield", some "IL", some "US", some "62704"⟩⟩, none⟩⟩⟩)
        "whsec" "payload" "whsecpayload"
        (fun _ => Except.ok (sessionLineItemsOf (mkLineItems
          [⟨5, "Hat A", "urlA", 1999, some 4011, 1⟩, ⟨6, "Hat B", "urlB", 2499, some 4022, 3⟩])))
        (Except.ok ())).submittedOrder =
      some { recipient := recipientOf
               ⟨some "Ann", none, some ⟨some "1 Main St", none, some "Springfield",
                 some "IL", some "US", some "62704"⟩⟩
               ⟨some "1 Main St", none, some "Springfield", some "IL", some "US", some "62704"⟩,
             items := [⟨some 4011, 1⟩, ⟨some 4022, 3⟩],
             confirm := 1 } :=
  (metadata_roundtrip_order (fun s b => s ++ b)
    (fun _ => ⟨"checkout.session.completed",
      ⟨⟨"sess_1", some ⟨some "Ann", none, some ⟨some "1 Main St", none,
        some "Springfield", some "IL", some "US", some "62704"⟩⟩, none⟩⟩⟩)
    "whsec" "payload" "whsecpayload" (Except.ok ())
    [⟨5, "Hat A", "urlA", 1999, some 4011, 1⟩, ⟨6, "Hat B", "urlB", 2499, some 4022, 3⟩]
    ⟨some "Ann", none, some ⟨some "1 Main St", none, some "Springfield",
      some "IL", some "US", some "62704"⟩⟩
    ⟨some "1 Main St", none, some "Springfield", some "IL", some "US", some "62704"⟩
    (by decide) (by decide) rfl rfl (by decide)).1

/-- C5: in `handleCheckoutSessionCompleted`, a line item lacking the
embedded variant/product metadata is dropped while the remaining valid
items are still submitted; if every item is dropped, or the session's
customer details (or their address) are absent, no fulfillment-submission
call is made and the condition is only logged; the webhook route's HTTP
response is 200 once verified, unaffected by any of this. -/
theorem dropped_item_policy :
    (∀ (pre post : List ExpandedLineItem) (bad : ExpandedLineItem),
      bad.price.product.metadata.variant_id = none ∨
        bad.price.product.metadata.product_id = none →
      orderItemsOf (pre ++ bad :: post) = orderItemsOf (pre ++ post)) ∧
    (∀ (session : Session) (items : List ExpandedLineItem) (cd : CustomerDetails) (a : Address),
      session.customer_details = some cd → cd.address = some a →
      orderItemsOf items ≠ [] →
      handleCheckoutSessionCompleted session items =
        some { recipient := mkOrderRecipient session cd a, items := orderItemsOf items }) ∧
    (∀ (session : Session) (items : List ExpandedLineItem),
      orderItemsOf items = [] → handleCheckoutSessionCompleted session items = none) ∧
    (∀ (session : Session) (items : List ExpandedLineItem),
      session.customer_details = none → handleCheckoutSessionCompleted session items = none) ∧
    (∀ (hmac : String → String → String) (secret body sig : String),
      sig = hmac secret body → webhookAck hmac secret body sig = 200) := by
  refine ⟨?_, ?_, ?_, ?_, ?_⟩
  · intro pre post bad hbad
    have hnone : (match bad.price.product.metadata.variant_id,
        bad.price.product.metadata.product_id with
      | some v, some p => if v = "" ∨ p = "" then none
          else some { sync_variant_id := v, quantity := bad.quantity }
      | _, _ => (none : Option OrderItem)) = none := by
      rcases hbad with h | h
      · rw [h]
      · rw [h]
        cases bad.price.product.metadata.variant_id <;> rfl
    simp only [orderItemsOf, List.filterMap_append, List.filterMap_cons, hnone]
  · intro session items cd a hcd ha hne
    simp only [handleCheckoutSessionCompleted, if_neg hne, hcd, ha]
  · intro session items he
    unfold handleCheckoutSessionCompleted
    rw [if_pos he]
  · intro session items hcd
    unfold handleCheckoutSessionCompleted
    by_cases he : orderItemsOf items = []
    · rw [if_pos he]
    · simp only [if_neg he, hcd]
  · intro hmac secret body sig h
    unfold webhookAck
    rw [if_pos h]

/-- Witness for C5: of two concrete line items, the one without variant
metadata is dropped and the other is still submitted; with both invalid,
or with customer details absent, nothing is submitted; the verified route
still acknowledges 200. -/
theorem dropped_item_policy_witness :
    orderItemsOf [⟨⟨⟨⟨some "4011", some "5"⟩⟩⟩, 1⟩, ⟨⟨⟨⟨none, some "6"⟩⟩⟩, 2⟩] =
      orderItemsOf [⟨⟨⟨⟨some "4011", some "5"⟩⟩⟩, 1⟩] ∧
    handleCheckoutSessionCompleted
      ⟨"sess_1", some ⟨some "Ann", some "555", some ⟨some "1 Main St", none,
        some "Springfield", some "IL", some "US", some "62704"⟩⟩, some "ann@mail.test"⟩
      [⟨⟨⟨⟨some "4011", some "5"⟩⟩⟩, 1⟩, ⟨⟨⟨⟨none, some "6"⟩⟩⟩, 2⟩] =
      some { recipient := mkOrderRecipient
               ⟨"sess_1", some ⟨some "Ann", some "555", some ⟨some "1 Main St", none,
                 some "Springfield", some "IL", some "US", some "62704"⟩⟩,
                 some "ann@mail.test"⟩
               ⟨some "Ann", some "555", some ⟨some "1 Main St", none, some "Springfield",
                 some "IL", some "US", some "62704"⟩⟩
               ⟨some "1 Main St", none, some "Springfield", some "IL", some "US", some "62704"⟩,
             items := orderItemsOf
               [⟨⟨⟨⟨some "4011", some "5"⟩⟩⟩, 1⟩, ⟨⟨⟨⟨none, some "6"⟩⟩⟩, 2⟩] } ∧
    handleCheckoutSessionCompleted ⟨"sess_1", some ⟨some "Ann", none, some ⟨some "1 Main St",
        none, some "Springfield", some "IL", some "US", some "62704"⟩⟩, none⟩
      [⟨⟨⟨⟨none, some "5"⟩⟩⟩, 1⟩, ⟨⟨⟨⟨none, some "6"⟩⟩⟩, 2⟩] = none ∧
    handleCheckoutSessionCompleted ⟨"sess_1", none, none⟩
      [⟨⟨⟨⟨some "4011", some "5"⟩⟩⟩, 1⟩] = none ∧
    webhookAck (fun s b => s ++ b) "whsec" "payload" "whsecpayload" = 200 :=
  ⟨dropped_item_policy.1 [⟨⟨⟨⟨some "4011", some "5"⟩⟩⟩, 1⟩] [] ⟨⟨⟨⟨none, some "6"⟩⟩⟩, 2⟩
      (Or.inl rfl),
   dropped_item_policy.2.1
     ⟨"sess_1", some ⟨some "Ann", some "555", some ⟨some "1 Main St", none,
       some "Springfield", some "IL", some "US", some "62704"⟩⟩, some "ann@mail.test"⟩
     [⟨⟨⟨⟨some "4011", some "5"⟩⟩⟩, 1⟩, ⟨⟨⟨⟨none, some "6"⟩⟩⟩, 2⟩]
     ⟨some "Ann", some "555", some ⟨some "1 Main St", none, some "Springfield",
       some "IL", some "US", some "62704"⟩⟩
     ⟨some "1 Main St", none, some "Springfield", some "IL", some "US", some "62704"⟩
     rfl rfl (by decide),
   dropped_item_policy.2.2.1
     ⟨"sess_1", some ⟨some "Ann", none, some ⟨some "1 Main St", none, some "Springfield",
       some "IL", some "US", some "62704"⟩⟩, none⟩
     [⟨⟨⟨⟨none, some "5"⟩⟩⟩, 1⟩, ⟨⟨⟨⟨none, some "6"⟩⟩⟩, 2⟩] (by decide),
   dropped_item_policy.2.2.2.1 ⟨"sess_1", none, none⟩
     [⟨⟨⟨⟨some "4011", some "5"⟩⟩⟩, 1⟩] rfl,
   dropped_item_policy.2.2.2.2 (fun s b => s ++ b) "whsec" "payload" "whsecpayload" rfl⟩

/-- C6: checkout-session creation builds exactly one line item per cart
item, passes the caller-supplied unit price through unmodified, preserves
the quantity, and hence preserves the sum of unit price times quantity;
no price is recomputed. -/
theorem price_passthrough (cart : List CartItem) (hne : cart ≠ []) :
    mkLineItems cart ≠ [] ∧
    (mkLineItems cart).length = cart.length ∧
    ((mkLineItems cart).map fun li => li.price_data.unit_amount) = cart.map CartItem.price ∧
    ((mkLineItems cart).map CheckoutLineItem.quantity) = cart.map CartItem.quantity ∧
    ((mkLineItems cart).map fun li => li.price_data.unit_amount * li.quantity).sum =
      (cart.map fun item => item.price * item.quantity).sum := by
  refine ⟨?_, ?_, ?_, ?_, ?_⟩ <;>
    simp [mkLineItems, List.map_map, Function.comp_def, hne]

/-- Witness for C6 at a concrete two-item cart. -/
theorem price_passthrough_witness :
    (mkLineItems [⟨5, "Hat A", "urlA", 1999, some 4011, 1⟩,
        ⟨6, "Hat B", "urlB", 2499, some 4022, 3⟩]).length = 2 ∧
    ((mkLineItems [⟨5, "Hat A", "urlA", 1999, some 4011, 1⟩,
        ⟨6, "Hat B", "urlB", 2499, some 4022, 3⟩]).map
        fun li => li.price_data.unit_amount * li.quantity).sum = 1999 * 1 + 2499 * 3 :=
  ⟨(price_passthrough [⟨5, "Hat A", "urlA", 1999, some 4011, 1⟩,
      ⟨6, "Hat B", "urlB", 2499, some 4022, 3⟩] (by decide)).2.1,
   ((price_passthrough [⟨5, "Hat A", "urlA", 1999, some 4011, 1⟩,
      ⟨6, "Hat B", "urlB", 2499, some 4022, 3⟩] (by decide)).2.2.2.2).trans (by decide)⟩

/-- C7 (code-bug evidence): the catalog price conversion
`parseFloat(variant.retail_price) * 100` evaluated under exact IEEE-754
binary64 semantics at the retail price string "19.99" yields
`1999 - 2 ^ (-42)` — the double `1998.9999999999998` — and not the integer
1999 the specification states. -/
theorem price_scaling_19_99 :
    variantPriceOf (some "19.99") = some (1999 - 1/2^42) ∧
    variantPriceOf (some "19.99") ≠ some 1999 := by
  have h : variantPriceOf (some "19.99") = some (1999 - 1/2^42) := by
    unfold variantPriceOf
    simp only [Option.some_bind, jsParseFloat, decValue_19_99, Option.map_some']
    rw [jsMul, fl_19_99, fl_19_99_times_100]
  refine ⟨h, ?_⟩
  rw [h]
  intro hc
  rw [Option.some_inj] at hc
  norm_num at hc

/-- C8 counterexample: in the `/api/products/:id` mapper, a product whose
`sync_product.name` is absent keeps `name` absent instead of the
placeholder, and a variant with no preview file gets `thumbnail_url` null
even though the product thumbnail is present — the claimed fallbacks do
not hold on the detail endpoint. -/
theorem catalog_fallback_counterexample :
    (mapProductDetail ⟨⟨7, none, none, some "THUMB"⟩,
      [⟨some 2, some "variant", none, some []⟩]⟩).name ≠ some "No name available" ∧
    ((mapProductDetail ⟨⟨7, none, none, some "THUMB"⟩,
      [⟨some 2, some "variant", none, some []⟩]⟩).variants.map
        VariantDetails.thumbnail_url) = [none] := by
  exact ⟨by decide, rfl⟩

/-- C8 (amended): the `/api/products` list mapper applies the name
placeholder and the preview-then-thumbnail-then-placeholder image chain;
the `/api/products/:id` mapper applies only the description placeholder —
its product name passes through unchanged and a variant without a preview
file maps to a null thumbnail with no fallback to the product thumbnail. -/
theorem catalog_fallback_amended :
    (∀ (product : ProductSummary) (details : ProductDetails) (mi : Option String),
      mockupImageOf details = some mi → product.name = none →
      ∃ lp, mapListProduct product details = some lp ∧ lp.name = "No name available") ∧
    (∀ (product : ProductSummary) (details : ProductDetails) (t : String),
      mockupImageOf details = some none → product.thumbnail_url = some t → t ≠ "" →
      ∃ lp, mapListProduct product details = some lp ∧ lp.thumbnail_url = t) ∧
    (∀ (product : ProductSummary) (details : ProductDetails),
      mockupImageOf details = some none → product.thumbnail_url = none →
      ∃ lp, mapListProduct product details = some lp ∧
        lp.thumbnail_url = "default_image_url") ∧
    (∀ p : ProductResult, p.sync_product.description = none →
      (mapProductDetail p).description = "No description available") ∧
    (∀ p : ProductResult, (mapProductDetail p).name = p.sync_product.name) ∧
    (∀ p : ProductResult, (∀ v ∈ p.sync_variants, v.files = some []) →
      ∀ vd ∈ (mapProductDetail p).variants, vd.thumbnail_url = none) := by
  refine ⟨?_, ?_, ?_, ?_, ?_, ?_⟩
  · intro product details mi hmi hname
    simp only [mapListProduct, hmi]
    exact ⟨_, rfl, by simp [jsOrStr, jsTruthy, hname]⟩
  · intro product details t hmi ht hne
    simp only [mapListProduct, hmi]
    exact ⟨_, rfl, by simp [jsOr, jsOrStr, jsTruthy, ht, hne]⟩
  · intro product details hmi ht
    simp only [mapListProduct, hmi]
    exact ⟨_, rfl, by simp [jsOr, jsOrStr, jsTruthy, ht]⟩
  · intro p h
    simp [mapProductDetail, jsOrStr, jsTruthy, h]
  · intro p
    rfl
  · intro p hf vd hvd
    simp only [mapProductDetail, List.mem_map] at hvd
    obtain ⟨v, hv, rfl⟩ := hvd
    simp [hf v hv, jsOr, jsTruthy]

/-- Witness for the amended C8 at concrete payloads: a product with no
name and no variants gets the name placeholder and the thumbnail
fallback, and one with neither preview nor thumbnail gets the placeholder
image. -/
theorem catalog_fallback_amended_witness :
    (∃ lp, mapListProduct ⟨7, none, some "THUMB"⟩ ⟨some []⟩ = some lp ∧
      lp.name = "No name available") ∧
    (∃ lp, mapListProduct ⟨7, none, some "THUMB"⟩ ⟨some []⟩ = some lp ∧
      lp.thumbnail_url = "THUMB") ∧
    (∃ lp, mapListProduct ⟨7, none, none⟩ ⟨some []⟩ = some lp ∧
      lp.thumbnail_url = "default_image_url") ∧
    (mapProductDetail ⟨⟨7, some "Hat", none, some "THUMB"⟩,
      [⟨some 2, some "variant", none, some []⟩]⟩).description =
      "No description available" :=
  ⟨catalog_fallback_amended.1 ⟨7, none, some "THUMB"⟩ ⟨some []⟩ none rfl rfl,
   catalog_fallback_amended.2.1 ⟨7, none, some "THUMB"⟩ ⟨some []⟩ "THUMB" rfl rfl
     (by decide),
   catalog_fallback_amended.2.2.1 ⟨7, none, none⟩ ⟨some []⟩ rfl rfl,
   catalog_fallback_amended.2.2.2.1 ⟨⟨7, some "Hat", none, some "THUMB"⟩,
     [⟨some 2, some "variant", none, some []⟩]⟩ rfl⟩

/-- C9 counterexample: the recipient object built by the `server.js`
webhook for a session whose customer details carry no phone has no
`phone` key at all — the claimed empty-string phone default does not
exist. -/
theorem recipient_phone_counterexample :
    List.lookup "phone" (recipientOf ⟨some "Ann", none, some ⟨some "1 Main St", none,
      some "Springfield", some "IL", some "US", some "62704"⟩⟩
      ⟨some "1 Main St", none, some "Springfield", some "IL", some "US", some "62704"⟩) =
      none ∧
    List.lookup "phone" (recipientOf ⟨some "Ann", none, some ⟨some "1 Main St", none,
      some "Springfield", some "IL", some "US", some "62704"⟩⟩
      ⟨some "1 Main St", none, some "Springfield", some "IL", some "US", some "62704"⟩) ≠
      some "" := by
  exact ⟨by decide, by decide⟩

/-- C9 (amended): the recipient has exactly the keys name, address1,
address2, city, state_code, country_code and zip — no phone; the name
defaults to the placeholder, address line 2 defaults to the empty string,
the country defaults to "US", and present non-empty fields are copied
through unchanged. -/
theorem recipient_defaults (cd : CustomerDetails) (a : Address) :
    (recipientOf cd a).map Prod.fst =
      ["name", "address1", "address2", "city", "state_code", "country_code", "zip"] ∧
    List.lookup "phone" (recipientOf cd a) = none ∧
    (cd.name = none → List.lookup "name" (recipientOf cd a) = some "No Name Provided") ∧
    (∀ s, cd.name = some s → s ≠ "" →
      List.lookup "name" (recipientOf cd a) = some s) ∧
    (a.line2 = none → List.lookup "address2" (recipientOf cd a) = some "") ∧
    (∀ s, a.line2 = some s → s ≠ "" →
      List.lookup "address2" (recipientOf cd a) = some s) ∧
    (a.country = none → List.lookup "country_code" (recipientOf cd a) = some "US") ∧
    (∀ s, a.country = some s → s ≠ "" →
      List.lookup "country_code" (recipientOf cd a) = some s) := by
  refine ⟨by simp [recipientOf], by simp [recipientOf, List.lookup], ?_, ?_, ?_, ?_, ?_, ?_⟩
  · intro h
    simp [recipientOf, List.lookup, jsOrStr, jsTruthy, h]
  · intro s h hs
    simp [recipientOf, List.lookup, jsOrStr, jsTruthy, h, hs]
  · intro h
    simp [recipientOf, List.lookup, jsOrStr, jsTruthy, h]
  · intro s h hs
    simp [recipientOf, List.lookup, jsOrStr, jsTruthy, h, hs]
  · intro h
    simp [recipientOf, List.lookup, jsOrStr, jsTruthy, h]
  · intro s h hs
    simp [recipientOf, List.lookup, jsOrStr, jsTruthy, h, hs]

/-- Witness for the amended C9 at a concrete session with no customer
name, no address line 2 and no country. -/
theorem recipient_defaults_witness :
    List.lookup "phone" (recipientOf ⟨none, some "555", some ⟨some "1 Main St", none,
      some "Springfield", some "IL", none, some "62704"⟩⟩
      ⟨some "1 Main St", none, some "Springfield", some "IL", none, some "62704"⟩) = none ∧
    List.lookup "name" (recipientOf ⟨none, some "555", some ⟨some "1 Main St", none,
      some "Springfield", some "IL", none, some "62704"⟩⟩
      ⟨some "1 Main St", none, some "Springfield", some "IL", none, some "62704"⟩) =
      some "No Name Provided" ∧
    List.lookup "address2" (recipientOf ⟨none, some "555", some ⟨some "1 Main St", none,
      some "Springfield", some "IL", none, some "62704"⟩⟩
      ⟨some "1 Main St", none, some "Springfield", some "IL", none, some "62704"⟩) =
      some "" ∧
    List.lookup "country_code" (recipientOf ⟨none, some "555", some ⟨some "1 Main St", none,
      some "Springfield", some "IL", none, some "62704"⟩⟩
      ⟨some "1 Main St", none, some "Springfield", some "IL", none, some "62704"⟩) =
      some "US" :=
  ⟨(recipient_defaults ⟨none, some "555", some ⟨some "1 Main St", none, some "Springfield",
      some "IL", none, some "62704"⟩⟩
      ⟨some "1 Main St", none, some "Springfield", some "IL", none, some "62704"⟩).2.1,
   (recipient_defaults ⟨none, some "555", some ⟨some "1 Main St", none, some "Springfield",
      some "IL", none, some "62704"⟩⟩
      ⟨some "1 Main St", none, some "Springfield", some "IL", none, some "62704"⟩).2.2.1 rfl,
   (recipient_defaults ⟨none, some "555", some ⟨some "1 Main St", none, some "Springfield",
      some "IL", none, some "62704"⟩⟩
      ⟨some "1 Main St", none, some "Springfield", some "IL", none, some "62704"⟩).2.2.2.2.1 rfl,
   (recipient_defaults ⟨none, some "555", some ⟨some "1 Main St", none, some "Springfield",
      some "IL", none, some "62704"⟩⟩
      ⟨some "1 Main St", none, some "Springfield", some "IL", none,
        some "62704"⟩).2.2.2.2.2.2.1 rfl⟩
